import Mathlib

/-!
Verification of the copyright-moderation engine of the BotChannel repository.

The definitions below are a shallow embedding of `bot/copyright_filter.py`
and the configuration loading in `bot/config.py`.  Text is modelled as
`List Char`; Python floats are modelled as exact rationals `ℚ`.  The
sentiment polarity produced by the external TextBlob library is modelled
as an oracle parameter.
-/

namespace BotChannel

/-- Characters matched by Python's regex `\s` class on ASCII input
(space, tab, newline, carriage return, vertical tab, form feed). -/
def isPySpace (c : Char) : Bool :=
  c == ' ' || c == '\t' || c == '\n' || c == '\r' ||
  c == '\x0b' || c == '\x0c'

/-- True when `pre` is a prefix of `l`, comparing characters for equality. -/
def startsWith : List Char → List Char → Bool
  | _, [] => true
  | [], _ :: _ => false
  | a :: as, b :: bs => a == b && startsWith as bs

/-- True when `needle` occurs as a contiguous substring of `hay`
(semantics of Python's `needle in hay` and of an unanchored regex search). -/
def occursIn (needle : List Char) : List Char → Bool
  | [] => startsWith [] needle
  | c :: rest => startsWith (c :: rest) needle || occursIn needle rest

/-- Remainder of `hay` after the first occurrence of `needle`, if any.
Used to model the regex fragment `needle.*` followed by further matching. -/
def findAfter (needle : List Char) : List Char → Option (List Char)
  | [] => if startsWith [] needle then some [] else none
  | c :: rest =>
    if startsWith (c :: rest) needle then some ((c :: rest).drop needle.length)
    else findAfter needle rest

/-- Character class of the URL-stripping regex in `preprocess_text`
(`bot/copyright_filter.py` line 51): ASCII letters, digits, the range
`$`–`_`, and the characters listed in the bracket expressions (the
`%hh` alternative is subsumed by the `$`–`_` range). -/
def isUrlChar (c : Char) : Bool :=
  c.isAlpha || c.isDigit || (decide ('$' ≤ c) && decide (c ≤ '_')) ||
  c == '!' || c == '*' || c == '\\' || c == '(' || c == ')' || c == ','

/-- Length of the maximal run of URL characters at the head of the list
(the greedy `(...)+` part of the URL regex, without the one-or-more check). -/
def takeUrlRun : List Char → Nat
  | [] => 0
  | c :: rest => if isUrlChar c then takeUrlRun rest + 1 else 0

/-- Length of the match of the URL regex of `preprocess_text` when it
matches at the head of `l`: literal `http`, optional `s` (greedy, and no
backtracking case can succeed after the greedy branch fails), literal
`://`, then at least one URL character, consumed greedily. -/
def matchUrlAt (l : List Char) : Option Nat :=
  if l.take 4 = "http".toList then
    match l.drop 4 with
    | 's' :: r =>
      if r.take 3 = "://".toList then
        let run := takeUrlRun (r.drop 3)
        if 0 < run then some (8 + run) else none
      else none
    | r =>
      if r.take 3 = "://".toList then
        let run := takeUrlRun (r.drop 3)
        if 0 < run then some (7 + run) else none
      else none
  else none

/-- One left-to-right, leftmost, non-overlapping deletion pass of
`re.sub(url_regex, '', text)`: at each position either a URL match is
consumed and removed, or the character is kept.  `fuel` is an upper bound
on the number of steps; the caller passes the length of the list, which
suffices because every step consumes at least one character. -/
def stripUrlsFuel : Nat → List Char → List Char
  | 0, l => l
  | _ + 1, [] => []
  | fuel + 1, c :: rest =>
    match matchUrlAt (c :: rest) with
    | some n => stripUrlsFuel fuel ((c :: rest).drop n)
    | none => c :: stripUrlsFuel fuel rest

/-- Deletion of every URL-regex match from the text, as performed by
`re.sub(r'http[s]?://(...)+', '', text)` in `preprocess_text`. -/
def stripUrls (l : List Char) : List Char :=
  stripUrlsFuel l.length l

/-- Splitting on whitespace runs with empty fields dropped, the semantics
of Python's `str.split()` with no argument.  `acc` holds the characters of
the word currently being read, in reverse. -/
def splitWordsAux : List Char → List Char → List (List Char)
  | [], acc => if acc.isEmpty then [] else [acc.reverse]
  | c :: rest, acc =>
    if isPySpace c then
      if acc.isEmpty then splitWordsAux rest []
      else acc.reverse :: splitWordsAux rest []
    else splitWordsAux rest (c :: acc)

/-- Python's `text.split()`. -/
def splitWords (l : List Char) : List (List Char) :=
  splitWordsAux l []

/-- Python's `' '.join(words)`. -/
def joinWords : List (List Char) → List Char
  | [] => []
  | [w] => w
  | w :: ws => w ++ ' ' :: joinWords ws

/-- First three steps of `preprocess_text`: lowercase, remove URLs,
replace every character that is not an ASCII letter, digit or whitespace
by a space (`bot/copyright_filter.py` lines 47-54). -/
def cleaned_text (text : List Char) : List Char :=
  (stripUrls (text.map Char.toLower)).map fun c =>
    if c.isAlpha || c.isDigit || isPySpace c then c else ' '

/-- Embedding of `preprocess_text` (`bot/copyright_filter.py` lines 42-59):
lowercase, remove URLs, replace every character that is not an ASCII
letter, digit or whitespace by a space, then collapse whitespace via
`' '.join(text.split())`.  The `if not text` guard of the source returns
the empty string, which this pipeline also produces on empty input. -/
def preprocess_text (text : List Char) : List Char :=
  joinWords (splitWords (cleaned_text text))

/-- Embedding of `keyword_detection` (`bot/copyright_filter.py` lines
61-70): case-insensitive substring containment of each keyword in the
given text, keeping the original keyword spelling, in keyword-list order. -/
def keyword_detection (text : List Char) (keywords : List (List Char)) :
    List (List Char) :=
  let text_lower := text.map Char.toLower
  keywords.filter fun keyword => occursIn (keyword.map Char.toLower) text_lower

/-- The built-in `DEFAULT_COPYRIGHT_KEYWORDS` list
(`bot/copyright_filter.py` lines 35-40). -/
def DEFAULT_COPYRIGHT_KEYWORDS : List (List Char) :=
  ["pirated".toList, "illegal download".toList, "torrent".toList,
   "cracked".toList, "leaked".toList, "copyright infringement".toList,
   "dmca".toList, "unauthorized".toList, "bootleg".toList,
   "cam rip".toList, "screener".toList, "dvdrip".toList,
   "brrip".toList, "webrip".toList, "movie leak".toList,
   "free movie".toList, "download movie".toList, "watch free".toList]

/-- Matches of the regex `a.*b` anywhere in `t` (no newlines can occur in
preprocessed text, so `.` is an arbitrary character): some occurrence of
`a` followed, at or after its end, by an occurrence of `b`. -/
def matchSeq2 (a b : String) (t : List Char) : Bool :=
  match findAfter a.toList t with
  | some r => occursIn b.toList r
  | none => false

/-- Matches of the regex `a.*b.*c` anywhere in `t`. -/
def matchSeq3 (a b c : String) (t : List Char) : Bool :=
  match findAfter a.toList t with
  | some r =>
    match findAfter b.toList r with
    | some r2 => occursIn c.toList r2
    | none => false
  | none => false

/-- Number of the five `copyright_patterns` regexes
(`bot/copyright_filter.py` lines 89-100) that match the preprocessed
text; each pattern contributes at most one. -/
def copyright_pattern_matches (t : List Char) : Nat :=
  (if matchSeq2 "download" "movie" t then 1 else 0) +
  (if matchSeq2 "watch" "free" t then 1 else 0) +
  (if occursIn "pirat".toList t || occursIn "crack".toList t ||
      occursIn "leak".toList t then 1 else 0) +
  (if matchSeq2 "torrent" "link" t || matchSeq2 "magnet" "link" t ||
      matchSeq2 "direct" "link" t then 1 else 0) +
  (if matchSeq3 "hd" "movie" "free" t || matchSeq3 "full" "movie" "free" t
   then 1 else 0)

/-- Embedding of `ai_content_analysis` (`bot/copyright_filter.py` lines
72-136), returning the `score` field of the produced dictionary.
`ai_available` and `ai_enabled` model the module flags `AI_AVAILABLE` and
`AI_ENABLED`; `polarity` models `TextBlob(processed_text).sentiment.polarity`,
a value produced by the external NLP library.  The `except` branch of the
source (an external-library failure, which also yields score `0.0`) has no
counterpart in this total embedding. -/
def ai_content_analysis (ai_available ai_enabled : Bool) (polarity : ℚ)
    (text : List Char) : ℚ :=
  if ai_available = false ∨ ai_enabled = false then 0
  else
    let processed := preprocess_text text
    if processed.isEmpty then 0
    else
      let pattern_matches := copyright_pattern_matches processed
      let risk1 : ℚ := 0 + ((pattern_matches : ℚ) / 5) * 0.4
      let risk2 : ℚ := if polarity < -0.3 then risk1 + 0.2 else risk1
      let risk3 : ℚ :=
        if 20 < (splitWords processed).length ∧ 0 < pattern_matches
        then risk2 + 0.2 else risk2
      let total_words := (splitWords processed).length
      let risk4 : ℚ :=
        if 0 < total_words
        then risk3 + min (((pattern_matches : ℚ) / (total_words : ℚ)) * 2) 0.3
        else risk3
      min risk4 1

/-- A record of `keywords.json` as read by `message_filter_handler`:
keyword text, active flag, detection counter.  The source defaults a
missing `is_active` field to `True`; records written by the bot always
carry the field, which is therefore modelled as present. -/
structure KeywordEntry where
  keyword : List Char
  is_active : Bool
  detection_count : Nat
deriving DecidableEq

/-- The active-keyword texts extracted from the stored records
(`bot/copyright_filter.py` line 154). -/
def active_keywords_of (data : List KeywordEntry) : List (List Char) :=
  (data.filter fun k => k.is_active).map fun k => k.keyword

/-- The keyword list actually used for detection: the active set, or the
built-in defaults when the active set is empty
(`bot/copyright_filter.py` lines 156-158). -/
def effective_keywords (data : List KeywordEntry) : List (List Char) :=
  let active := active_keywords_of data
  if active.isEmpty then DEFAULT_COPYRIGHT_KEYWORDS else active

/-- The verdict assembled by `message_filter_handler` for one message:
filter decision, matched keywords, and the AI risk score. -/
structure Verdict where
  should_filter : Bool
  detected_keywords : List (List Char)
  score : ℚ
deriving DecidableEq

/-- The decision logic of `message_filter_handler` lines 167-176:
`should_filter` starts false, is set by a non-empty detected-keyword list,
and is set by a score at or above the threshold. -/
def should_filter_decision (detected : List (List Char))
    (score threshold : ℚ) : Bool :=
  let sf0 := false
  let sf1 := if detected.isEmpty = false then true else sf0
  let sf2 := if threshold ≤ score then true else sf1
  sf2

/-- The evaluation pipeline of `message_filter_handler`
(`bot/copyright_filter.py` lines 152-176): effective keywords, keyword
detection on the raw message text, AI analysis, decision. -/
def message_filter_verdict (ai_available ai_enabled : Bool)
    (threshold polarity : ℚ) (data : List KeywordEntry)
    (text : List Char) : Verdict :=
  let keywords := effective_keywords data
  let detected := keyword_detection text keywords
  let score := ai_content_analysis ai_available ai_enabled polarity text
  ⟨should_filter_decision detected score threshold, detected, score⟩

/-- The detection-counter update of `message_filter_handler` lines
212-217: every stored record whose keyword text is among the detected
keywords has its counter incremented by one. -/
def update_detection_counts (data : List KeywordEntry)
    (detected : List (List Char)) : List KeywordEntry :=
  data.map fun k =>
    if detected.contains k.keyword
    then { k with detection_count := k.detection_count + 1 }
    else k

/-- The effect of `message_filter_handler` on the stored keyword records:
counters are updated only when the message is filtered (the update sits
inside the `if should_filter:` block, lines 184-217). -/
def handler_ledger_effect (v : Verdict) (data : List KeywordEntry) :
    List KeywordEntry :=
  if v.should_filter then update_detection_counts data v.detected_keywords
  else data

/-- Decimal value of a digit string, accumulated left to right; `none`
when a non-digit character occurs. -/
def natOfDigits : List Char → Nat → Option Nat
  | [], acc => some acc
  | c :: rest, acc =>
    if c.isDigit then natOfDigits rest (acc * 10 + (c.toNat - 48))
    else none

/-- Integer part, fractional part, and fractional-digit count of an
unsigned decimal literal, or `none` when the shape is not
`digits [ . digits ]` with at least one digit present. -/
def floatParts (l : List Char) : Option (Nat × Nat × Nat) :=
  let intPart := l.takeWhile fun c => c.isDigit
  let rest := l.dropWhile fun c => c.isDigit
  match rest with
  | [] =>
    if intPart.isEmpty then none
    else (natOfDigits intPart 0).map fun n => (n, 0, 0)
  | '.' :: frac =>
    if (frac.all fun c => c.isDigit) && !(intPart.isEmpty && frac.isEmpty)
    then
      match natOfDigits intPart 0, natOfDigits frac 0 with
      | some i, some f => some (i, f, frac.length)
      | _, _ => none
    else none
  | _ => none

/-- Modelled from the source call `float(...)` in `bot/config.py` line 39
for unsigned plain decimal literals: digits with an optional fractional
part.  Exponent, infinity, nan and surrounding-whitespace forms accepted
by Python's `float` are outside the model. -/
def parseUnsignedFloat (l : List Char) : Option ℚ :=
  (floatParts l).map fun t => (t.1 : ℚ) + (t.2.1 : ℚ) / (10 : ℚ) ^ t.2.2

/-- Python `float(s)` on plain decimal literals with an optional sign. -/
def parsePyFloat (s : String) : Option ℚ :=
  match s.toList with
  | '-' :: rest => (parseUnsignedFloat rest).map fun q => -q
  | '+' :: rest => parseUnsignedFloat rest
  | l => parseUnsignedFloat l

/-- Embedding of the configuration-load line
`COPYRIGHT_THRESHOLD = float(os.getenv("COPYRIGHT_THRESHOLD", "0.7"))`
(`bot/config.py` line 39): the environment value, defaulted to `"0.7"`,
parsed as a float.  `none` models the `ValueError` of an unparseable
string; no range check of any kind is performed. -/
def COPYRIGHT_THRESHOLD_cfg (env : Option String) : Option ℚ :=
  parsePyFloat (env.getD "0.7")

/-- Every word produced by `splitWordsAux` from a whitespace-free
accumulator is non-empty and whitespace-free. -/
theorem splitWordsAux_mem (l : List Char) : ∀ acc,
    (∀ c ∈ acc, isPySpace c = false) →
    ∀ w ∈ splitWordsAux l acc, w ≠ [] ∧ ∀ c ∈ w, isPySpace c = false := by
  induction l with
  | nil =>
    intro acc hacc w hw
    unfold splitWordsAux at hw
    by_cases ha : acc.isEmpty
    · simp [ha] at hw
    · simp [ha] at hw
      subst hw
      refine ⟨?_, ?_⟩
      · simp only [List.isEmpty_iff] at ha
        simpa using ha
      · intro c hc
        exact hacc c (List.mem_reverse.mp hc)
  | cons c rest ih =>
    intro acc hacc w hw
    unfold splitWordsAux at hw
    by_cases hs : isPySpace c
    · by_cases ha : acc.isEmpty
      · simp [hs, ha] at hw
        exact ih [] (by simp) w hw
      · simp [hs, ha] at hw
        rcases hw with hw | hw
        · subst hw
          refine ⟨?_, ?_⟩
          · simp only [List.isEmpty_iff] at ha
            simpa using ha
          · intro x hx
            exact hacc x (List.mem_reverse.mp hx)
        · exact ih [] (by simp) w hw
    · simp [hs] at hw
      refine ih (c :: acc) ?_ w hw
      intro x hx
      rcases List.mem_cons.mp hx with h1 | h1
      · subst h1
        simpa using hs
      · exact hacc x h1

/-- Every word produced by `splitWords` is non-empty and whitespace-free. -/
theorem splitWords_mem (l : List Char) (w : List Char)
    (hw : w ∈ splitWords l) : w ≠ [] ∧ ∀ c ∈ w, isPySpace c = false :=
  splitWordsAux_mem l [] (by simp) w hw

/-- If `splitWordsAux` yields no words, the accumulator was empty and the
input was all whitespace. -/
theorem splitWordsAux_eq_nil (l : List Char) : ∀ acc,
    splitWordsAux l acc = [] → acc = [] ∧ ∀ c ∈ l, isPySpace c = true := by
  induction l with
  | nil =>
    intro acc h
    unfold splitWordsAux at h
    by_cases ha : acc.isEmpty
    · exact ⟨List.isEmpty_iff.mp ha, by simp⟩
    · simp [ha] at h
  | cons c rest ih =>
    intro acc h
    unfold splitWordsAux at h
    by_cases hs : isPySpace c
    · by_cases ha : acc.isEmpty
      · simp [hs, ha] at h
        refine ⟨List.isEmpty_iff.mp ha, ?_⟩
        intro x hx
        rcases List.mem_cons.mp hx with h1 | h1
        · subst h1
          exact hs
        · exact (ih [] h).2 x h1
      · simp [hs, ha] at h
    · simp [hs] at h
      exact absurd (ih (c :: acc) h).1 (by simp)

/-- A text that splits into no words is all whitespace. -/
theorem splitWords_eq_nil (l : List Char) (h : splitWords l = []) :
    ∀ c ∈ l, isPySpace c = true :=
  (splitWordsAux_eq_nil l [] h).2

/-- A character of the first word occurs in the joined text. -/
theorem joinWords_mem (w : List Char) (ws : List (List Char)) (c : Char)
    (hc : c ∈ w) : c ∈ joinWords (w :: ws) := by
  cases ws with
  | nil => simpa [joinWords] using hc
  | cons w2 ws2 =>
    show c ∈ w ++ ' ' :: joinWords (w2 :: ws2)
    exact List.mem_append.mpr (Or.inl hc)

/-- A non-empty preprocessed text splits into at least one word: the word
count used by `ai_content_analysis` is positive. -/
theorem preprocess_wordCount_pos (text : List Char)
    (h : preprocess_text text ≠ []) :
    0 < (splitWords (preprocess_text text)).length := by
  rcases hsp : splitWords (cleaned_text text) with _ | ⟨w, ws⟩
  · refine absurd ?_ h
    rw [preprocess_text, hsp]
    rfl
  · have hmemw : w ∈ splitWords (cleaned_text text) := by
      rw [hsp]
      exact List.mem_cons_self w ws
    rcases splitWords_mem (cleaned_text text) w hmemw with ⟨hne, hfree⟩
    rcases w with _ | ⟨c, cw⟩
    · exact absurd rfl hne
    · have hcmem : c ∈ joinWords ((c :: cw) :: ws) :=
        joinWords_mem (c :: cw) ws c (List.mem_cons_self c cw)
      have hpre : preprocess_text text = joinWords ((c :: cw) :: ws) := by
        rw [preprocess_text, hsp]
      rcases Nat.eq_zero_or_pos (splitWords (preprocess_text text)).length
        with h0 | hpos
      · have hnil : splitWords (preprocess_text text) = [] :=
          List.length_eq_zero.mp h0
        have hspace : isPySpace c = true := by
          apply splitWords_eq_nil (preprocess_text text) hnil
          rw [hpre]
          exact hcmem
        have hfc := hfree c (List.mem_cons_self c cw)
        rw [hfc] at hspace
        exact absurd hspace (by simp)
      · exact hpos

/-- When the AI capability is unavailable or disabled, the analysis
short-circuits to score `0.0` without computing any signal. -/
theorem ai_content_analysis_off (ai_available ai_enabled : Bool)
    (polarity : ℚ) (text : List Char)
    (h : ai_available = false ∨ ai_enabled = false) :
    ai_content_analysis ai_available ai_enabled polarity text = 0 := by
  rw [ai_content_analysis, if_pos h]

/-- Closed form of the risk score computed by `ai_content_analysis` when
the capability is on and the normalized text is non-empty: the weighted
sum of the pattern, sentiment, verbosity and density terms, clamped at 1. -/
theorem ai_content_analysis_formula (p : ℚ) (text : List Char)
    (h : preprocess_text text ≠ []) :
    ai_content_analysis true true p text =
      min (((copyright_pattern_matches (preprocess_text text) : ℚ) / 5) * 0.4
        + (if p < -0.3 then (0.2 : ℚ) else 0)
        + (if 20 < (splitWords (preprocess_text text)).length ∧
              0 < copyright_pattern_matches (preprocess_text text)
           then (0.2 : ℚ) else 0)
        + min (((copyright_pattern_matches (preprocess_text text) : ℚ) /
              (((splitWords (preprocess_text text)).length.max 1 : ℕ) : ℚ)) * 2)
            0.3) 1 := by
  have hwc := preprocess_wordCount_pos text h
  have hmax : (splitWords (preprocess_text text)).length.max 1 =
      (splitWords (preprocess_text text)).length := Nat.max_eq_left hwc
  have hemp : ¬ ((preprocess_text text).isEmpty = true) := by
    simpa [List.isEmpty_iff] using h
  rw [ai_content_analysis, if_neg (by simp), if_neg hemp]
  by_cases hp : p < -0.3 <;> by_cases hv : 20 <
      (splitWords (preprocess_text text)).length ∧
      0 < copyright_pattern_matches (preprocess_text text) <;>
    simp [hp, hv, hwc, hmax]

/-- The handler's two sequential ifs implement a logical OR of the
keyword signal and the threshold comparison. -/
theorem should_filter_decision_iff (detected : List (List Char))
    (score threshold : ℚ) :
    should_filter_decision detected score threshold = true ↔
      (detected ≠ [] ∨ threshold ≤ score) := by
  rcases detected with _ | ⟨k, ks⟩ <;> by_cases h2 : threshold ≤ score <;>
    simp [should_filter_decision, h2]

/-- A message text for which all five risk patterns fire, the word count
exceeds 20, and no default keyword occurs as a substring.  The text is
already in normalized form, so preprocessing leaves it unchanged. -/
def c1_text : List Char :=
  ("download the movie now watch it free pirating magnet best link " ++
    "hd full movie totally free for you my friend yes indeed").toList

/-- C1 (counterexample): with the default keywords and threshold 0.7, the
verdict for `c1_text` when the capability is unavailable (not filtered,
score 0) differs from the verdict with the capability available and a
neutral polarity 0.0 (filtered, score 0.9). -/
theorem C1_counterexample :
    (message_filter_verdict false true 0.7 0 [] c1_text).should_filter = false ∧
    (message_filter_verdict true true 0.7 0 [] c1_text).should_filter = true := by
  constructor
  · have h0 := ai_content_analysis_off false true 0 c1_text (Or.inl rfl)
    have hdet : keyword_detection c1_text (effective_keywords []) = [] := by
      decide
    have hn : ¬ ((0.7 : ℚ) ≤ 0) := by norm_num
    simp [message_filter_verdict, h0, hdet, should_filter_decision, hn]
  · have hpre : preprocess_text c1_text = c1_text := by decide
    have hne : preprocess_text c1_text ≠ [] := by rw [hpre]; decide
    have hf := ai_content_analysis_formula 0 c1_text hne
    have hpm : copyright_pattern_matches (preprocess_text c1_text) = 5 := by
      rw [hpre]; decide
    have hwc : (splitWords (preprocess_text c1_text)).length = 22 := by
      rw [hpre]; decide
    rw [hpm, hwc] at hf
    have hscore : ai_content_analysis true true 0 c1_text = 9 / 10 := by
      rw [hf]
      have hmax : (22 : ℕ).max 1 = 22 := by decide
      rw [hmax]
      have hd : min (((5 : ℕ) : ℚ) / ((22 : ℕ) : ℚ) * 2) 0.3 = 0.3 := by
        rw [min_eq_right]
        push_cast
        norm_num
      rw [hd, if_neg (by norm_num), if_pos (by norm_num)]
      push_cast
      norm_num
    have hdet : keyword_detection c1_text (effective_keywords []) = [] := by
      decide
    have hy : (0.7 : ℚ) ≤ 9 / 10 := by norm_num
    simp [message_filter_verdict, hscore, hdet, should_filter_decision, hy]

/-- C1 (amended): when the capability is unavailable or the operator flag
disables it, the verdict equals the verdict computed with the whole AI
analysis skipped — risk score exactly 0, with the pattern, verbosity and
density signals not computed either — which is in general not the verdict
obtained from a neutral sentiment polarity with the other signals kept. -/
theorem C1_ai_unavailable_verdict_skips_all_signals
    (ai_available ai_enabled : Bool) (threshold polarity : ℚ)
    (data : List KeywordEntry) (text : List Char)
    (h : ai_available = false ∨ ai_enabled = false) :
    message_filter_verdict ai_available ai_enabled threshold polarity data text =
      ⟨should_filter_decision (keyword_detection text (effective_keywords data))
          0 threshold,
        keyword_detection text (effective_keywords data), 0⟩ := by
  have h0 := ai_content_analysis_off ai_available ai_enabled polarity text h
  simp [message_filter_verdict, h0]

/-- C1 (witness): the disabled-capability verdict shape at a concrete
input, obtained by instantiating the amended theorem. -/
theorem C1_witness :
    message_filter_verdict false true 0.7 0 [] "hello there".toList =
      ⟨should_filter_decision
          (keyword_detection "hello there".toList (effective_keywords [])) 0 0.7,
        keyword_detection "hello there".toList (effective_keywords []), 0⟩ :=
  C1_ai_unavailable_verdict_skips_all_signals false true 0.7 0 []
    "hello there".toList (Or.inl rfl)

/-- The string `"1.5"` parses to the rational `3/2`. -/
theorem parse_one_point_five : parsePyFloat "1.5" = some (3 / 2) := by
  have hstep : parsePyFloat "1.5" = parseUnsignedFloat "1.5".toList := rfl
  have hp : floatParts "1.5".toList = some (1, 5, 1) := by decide
  rw [hstep, parseUnsignedFloat, hp, Option.map_some']
  rw [Option.some_inj]
  push_cast
  norm_num

/-- C2 (counterexample): the configuration value `"1.5"` is outside
`[0,1]`, yet configuration load accepts it and yields threshold `3/2` —
the claimed load-time rejection does not happen. -/
theorem C2_counterexample :
    COPYRIGHT_THRESHOLD_cfg (some "1.5") = some (3 / 2) ∧
    ¬ ((3 : ℚ) / 2 ≤ 1) := by
  refine ⟨?_, by norm_num⟩
  have hstep : COPYRIGHT_THRESHOLD_cfg (some "1.5") = parsePyFloat "1.5" := rfl
  rw [hstep, parse_one_point_five]

/-- C2 (amended): configuration load performs no range validation and no
clamping: any string that parses as a float is accepted, and the loaded
threshold is exactly the parsed value, also when it lies outside `[0,1]`. -/
theorem C2_threshold_load_accepts_any_parsed_value (s : String) (q : ℚ)
    (h : parsePyFloat s = some q) :
    COPYRIGHT_THRESHOLD_cfg (some s) = some q := by
  have hstep : COPYRIGHT_THRESHOLD_cfg (some s) = parsePyFloat s := rfl
  rw [hstep, h]

/-- C2 (witness): the out-of-range value `1.5` is loaded unchanged. -/
theorem C2_witness : COPYRIGHT_THRESHOLD_cfg (some "1.5") = some (3 / 2) :=
  C2_threshold_load_accepts_any_parsed_value "1.5" (3 / 2) parse_one_point_five

/-- The keyword-scenario input from the spec's testable properties. -/
def c3_text : List Char := "Download the latest movie for free here".toList

/-- The risk score of the scenario text stays below the 0.7 threshold for
every sentiment polarity and capability state: only the first pattern
fires and the text has seven words, so the score is at most 0.58. -/
theorem c3_score_lt (ai_available ai_enabled : Bool) (p : ℚ) :
    ai_content_analysis ai_available ai_enabled p c3_text < 0.7 := by
  by_cases hoff : ai_available = false ∨ ai_enabled = false
  · rw [ai_content_analysis_off _ _ _ _ hoff]
    norm_num
  · have haa : ai_available = true := by
      cases ai_available
      · exact absurd (Or.inl rfl) hoff
      · rfl
    have hae : ai_enabled = true := by
      cases ai_enabled
      · exact absurd (Or.inr rfl) hoff
      · rfl
    subst haa
    subst hae
    have hpre : preprocess_text c3_text =
        "download the latest movie for free here".toList := by decide
    have hne : preprocess_text c3_text ≠ [] := by
      rw [hpre]
      decide
    rw [ai_content_analysis_formula p c3_text hne]
    have hpm : copyright_pattern_matches (preprocess_text c3_text) = 1 := by
      rw [hpre]
      decide
    have hwc : (splitWords (preprocess_text c3_text)).length = 7 := by
      rw [hpre]
      decide
    rw [hpm, hwc]
    have hmax : (7 : ℕ).max 1 = 7 := by decide
    rw [hmax, if_neg (by omega : ¬ (20 < 7 ∧ 0 < 1))]
    refine lt_of_le_of_lt (min_le_left _ _) ?_
    have hd : min (((1 : ℕ) : ℚ) / ((7 : ℕ) : ℚ) * 2) 0.3 ≤ 0.3 :=
      min_le_right _ _
    by_cases hp : p < -0.3
    · rw [if_pos hp]
      push_cast
      push_cast at hd
      linarith
    · rw [if_neg hp]
      push_cast
      push_cast at hd
      linarith

/-- C3 (counterexample): on `"Download the latest movie for free here"`
with default keywords and threshold 0.7, no keyword is matched (no default
entry occurs as a contiguous substring of the raw text) and the verdict is
not to filter, contradicting the claimed keyword hits and
`shouldFilter == true`. -/
theorem C3_counterexample :
    (message_filter_verdict true true 0.7 0 [] c3_text).detected_keywords = [] ∧
    (message_filter_verdict true true 0.7 0 [] c3_text).should_filter = false := by
  constructor
  · decide
  · have hdet : keyword_detection c3_text (effective_keywords []) = [] := by
      decide
    have hn : ¬ ((0.7 : ℚ) ≤ ai_content_analysis true true 0 c3_text) :=
      not_le.mpr (c3_score_lt true true 0)
    simp [message_filter_verdict, hdet, should_filter_decision, hn]

/-- C3 (amended): for the scenario input, the matched-keyword list is
empty — substring matching never finds `"download movie"` or
`"free movie"` in this text — and the verdict is `shouldFilter == false`
for every capability state and every sentiment polarity. -/
theorem C3_scenario_not_filtered (ai_available ai_enabled : Bool) (p : ℚ) :
    (message_filter_verdict ai_available ai_enabled 0.7 p [] c3_text).detected_keywords
        = [] ∧
    (message_filter_verdict ai_available ai_enabled 0.7 p [] c3_text).should_filter
        = false := by
  constructor
  · show keyword_detection c3_text (effective_keywords []) = []
    decide
  · have hdet : keyword_detection c3_text (effective_keywords []) = [] := by
      decide
    have hn : ¬ ((0.7 : ℚ) ≤ ai_content_analysis ai_available ai_enabled p c3_text) :=
      not_le.mpr (c3_score_lt ai_available ai_enabled p)
    simp [message_filter_verdict, hdet, should_filter_decision, hn]

/-- A concrete non-degenerate input for instantiating the score formula. -/
def c4_text : List Char := "watch this pirated movie for free".toList

/-- C4 (confirmed): with the capability available and enabled and a
non-empty normalized text, the risk score is exactly the weighted sum of
the pattern term, the sentiment term, the verbosity term and the clamped
density term, with the final sum clamped at 1. -/
theorem C4_risk_score_formula (p : ℚ) (text : List Char)
    (h : preprocess_text text ≠ []) :
    ai_content_analysis true true p text =
      min (((copyright_pattern_matches (preprocess_text text) : ℚ) / 5) * 0.4
        + (if p < -0.3 then (0.2 : ℚ) else 0)
        + (if 20 < (splitWords (preprocess_text text)).length ∧
              0 < copyright_pattern_matches (preprocess_text text)
           then (0.2 : ℚ) else 0)
        + min (((copyright_pattern_matches (preprocess_text text) : ℚ) /
              (((splitWords (preprocess_text text)).length.max 1 : ℕ) : ℚ)) * 2)
            0.3) 1 :=
  ai_content_analysis_formula p text h

/-- C4 (witness): the formula instantiated at a concrete input with
neutral polarity. -/
theorem C4_witness :
    ai_content_analysis true true 0 c4_text =
      min (((copyright_pattern_matches (preprocess_text c4_text) : ℚ) / 5) * 0.4
        + (if (0 : ℚ) < -0.3 then (0.2 : ℚ) else 0)
        + (if 20 < (splitWords (preprocess_text c4_text)).length ∧
              0 < copyright_pattern_matches (preprocess_text c4_text)
           then (0.2 : ℚ) else 0)
        + min (((copyright_pattern_matches (preprocess_text c4_text) : ℚ) /
              (((splitWords (preprocess_text c4_text)).length.max 1 : ℕ) : ℚ)) * 2)
            0.3) 1 :=
  C4_risk_score_formula 0 c4_text (by decide)

/-- C5 (confirmed): for every capability state, polarity and input text
the risk score lies in `[0, 1]`, and an input that normalizes to the
empty text yields exactly 0; the embedding is a total function, so no
error path exists. -/
theorem C5_risk_score_bounded (ai_available ai_enabled : Bool) (p : ℚ)
    (text : List Char) :
    0 ≤ ai_content_analysis ai_available ai_enabled p text ∧
    ai_content_analysis ai_available ai_enabled p text ≤ 1 ∧
    (preprocess_text text = [] →
      ai_content_analysis ai_available ai_enabled p text = 0) := by
  by_cases hoff : ai_available = false ∨ ai_enabled = false
  · rw [ai_content_analysis_off _ _ _ _ hoff]
    norm_num
  · have haa : ai_available = true := by
      cases ai_available
      · exact absurd (Or.inl rfl) hoff
      · rfl
    have hae : ai_enabled = true := by
      cases ai_enabled
      · exact absurd (Or.inr rfl) hoff
      · rfl
    subst haa
    subst hae
    by_cases hne : preprocess_text text = []
    · have h0 : ai_content_analysis true true p text = 0 := by
        rw [ai_content_analysis, if_neg hoff, if_pos (by simp [hne])]
      rw [h0]
      norm_num
    · rw [ai_content_analysis_formula p text hne]
      refine ⟨?_, min_le_right _ _, fun he => absurd he hne⟩
      refine le_min ?_ (by norm_num)
      have t1 : (0 : ℚ) ≤
          ((copyright_pattern_matches (preprocess_text text) : ℚ) / 5) * 0.4 := by
        positivity
      have t2 : (0 : ℚ) ≤ (if p < -0.3 then (0.2 : ℚ) else 0) := by
        split <;> norm_num
      have t3 : (0 : ℚ) ≤
          (if 20 < (splitWords (preprocess_text text)).length ∧
              0 < copyright_pattern_matches (preprocess_text text)
           then (0.2 : ℚ) else 0) := by
        split <;> norm_num
      have t4 : (0 : ℚ) ≤
          min (((copyright_pattern_matches (preprocess_text text) : ℚ) /
              (((splitWords (preprocess_text text)).length.max 1 : ℕ) : ℚ)) * 2)
            0.3 := by
        refine le_min ?_ (by norm_num)
        positivity
      linarith

/-- C5 (witness): a URL-only input normalizes to empty and scores 0. -/
theorem C5_witness :
    ai_content_analysis true true 0 "http://abc".toList = 0 :=
  (C5_risk_score_bounded true true 0 "http://abc".toList).2.2 (by decide)

/-- C6 (confirmed): the filter decision of every evaluation is the
logical OR of a non-empty matched-keyword list and a score at or above
the threshold. -/
theorem C6_decision_rule (ai_available ai_enabled : Bool) (th p : ℚ)
    (data : List KeywordEntry) (text : List Char) :
    (message_filter_verdict ai_available ai_enabled th p data text).should_filter
        = true ↔
      ((message_filter_verdict ai_available ai_enabled th p data text).detected_keywords
          ≠ [] ∨
        th ≤ (message_filter_verdict ai_available ai_enabled th p data text).score) :=
  should_filter_decision_iff _ _ _

/-- C7 (confirmed): when the stored active keyword set is empty, the
effective keyword list is the built-in default list and keyword detection
behaves exactly as if the defaults were active. -/
theorem C7_empty_active_set_uses_defaults (data : List KeywordEntry)
    (text : List Char) (h : active_keywords_of data = []) :
    effective_keywords data = DEFAULT_COPYRIGHT_KEYWORDS ∧
    keyword_detection text (effective_keywords data) =
      keyword_detection text DEFAULT_COPYRIGHT_KEYWORDS := by
  have he : effective_keywords data = DEFAULT_COPYRIGHT_KEYWORDS := by
    simp [effective_keywords, h]
  exact ⟨he, by rw [he]⟩

/-- C7 (witness): a store holding only a deactivated keyword falls back
to the default list. -/
theorem C7_witness :
    effective_keywords [⟨"torrent".toList, false, 3⟩] =
      DEFAULT_COPYRIGHT_KEYWORDS ∧
    keyword_detection "get the torrent now".toList
        (effective_keywords [⟨"torrent".toList, false, 3⟩]) =
      keyword_detection "get the torrent now".toList
        DEFAULT_COPYRIGHT_KEYWORDS :=
  C7_empty_active_set_uses_defaults [⟨"torrent".toList, false, 3⟩]
    "get the torrent now".toList (by decide)

/-- C8 (confirmed): on a filtered verdict, the handler's ledger update
increments the detection counter of every stored record whose keyword was
matched by exactly one, and leaves every other record unchanged. -/
theorem C8_ledger_increment_once_per_matched (v : Verdict)
    (data : List KeywordEntry) (h : v.should_filter = true) :
    List.Forall₂ (fun old new => new.keyword = old.keyword ∧
        new.is_active = old.is_active ∧
        new.detection_count = old.detection_count +
          (if v.detected_keywords.contains old.keyword then 1 else 0))
      data (handler_ledger_effect v data) := by
  rw [handler_ledger_effect, if_pos h]
  induction data with
  | nil => exact List.Forall₂.nil
  | cons k rest ih =>
    rw [update_detection_counts, List.map_cons]
    refine List.Forall₂.cons ?_ ?_
    · by_cases hc : k.keyword ∈ v.detected_keywords
      · simp [hc]
      · simp [hc]
    · rw [update_detection_counts] at ih
      exact ih

/-- C8 (witness): a filtered verdict matching `torrent` increments that
record's counter from 3 to 4 and leaves the `dmca` record unchanged. -/
theorem C8_witness :
    List.Forall₂ (fun (old new : KeywordEntry) => new.keyword = old.keyword ∧
        new.is_active = old.is_active ∧
        new.detection_count = old.detection_count +
          (if (Verdict.mk true ["torrent".toList] 0).detected_keywords.contains
              old.keyword
           then 1 else 0))
      [⟨"torrent".toList, true, 3⟩, ⟨"dmca".toList, true, 1⟩]
      (handler_ledger_effect ⟨true, ["torrent".toList], 0⟩
        [⟨"torrent".toList, true, 3⟩, ⟨"dmca".toList, true, 1⟩]) :=
  C8_ledger_increment_once_per_matched ⟨true, ["torrent".toList], 0⟩
    [⟨"torrent".toList, true, 3⟩, ⟨"dmca".toList, true, 1⟩] rfl

/-- C9 (counterexample): for the raw text `"free-movie"` the pipeline
matches no keyword, while keyword matching applied to the normalized text
(`"free movie"`) matches the default keyword `free movie`: the pipeline's
matcher does not consume the normalizer's output. -/
theorem C9_counterexample :
    (message_filter_verdict true true 0.7 0 [] "free-movie".toList).detected_keywords
        = [] ∧
    keyword_detection (preprocess_text "free-movie".toList)
        (effective_keywords []) = ["free movie".toList] := by
  constructor
  · decide
  · decide

/-- C9 (amended): the matched-keyword sequence of every evaluation equals
keyword matching applied to the raw message text (lowercased inside the
matcher only) — URL stripping, punctuation removal and whitespace
collapsing are not applied before keyword matching; only the AI analysis
consumes the normalized text. -/
theorem C9_matcher_consumes_raw_text (ai_available ai_enabled : Bool)
    (th p : ℚ) (data : List KeywordEntry) (text : List Char) :
    (message_filter_verdict ai_available ai_enabled th p data text).detected_keywords =
      keyword_detection text (effective_keywords data) := rfl

/-- C10 (confirmed): whenever the capability is unavailable or disabled,
the analysis score is exactly 0 for every input, and for any positive
threshold a message is filtered exactly when some effective keyword
matches. -/
theorem C10_ai_off_keyword_only (ai_available ai_enabled : Bool)
    (th p : ℚ) (data : List KeywordEntry) (text : List Char)
    (h : ai_available = false ∨ ai_enabled = false) :
    ai_content_analysis ai_available ai_enabled p text = 0 ∧
    (0 < th →
      ((message_filter_verdict ai_available ai_enabled th p data text).should_filter
          = true ↔
        keyword_detection text (effective_keywords data) ≠ [])) := by
  have h0 := ai_content_analysis_off ai_available ai_enabled p text h
  refine ⟨h0, fun hth => ?_⟩
  have hiff : (message_filter_verdict ai_available ai_enabled th p data text).should_filter
      = true ↔
      (keyword_detection text (effective_keywords data) ≠ [] ∨
        th ≤ ai_content_analysis ai_available ai_enabled p text) :=
    should_filter_decision_iff _ _ _
  rw [hiff, h0]
  constructor
  · rintro (hd | hle)
    · exact hd
    · exact absurd hle (not_le.mpr hth)
  · exact Or.inl

/-- C10 (witness): with the capability unavailable, threshold 0.7, and
the text `"get the torrent now"`, the score is 0 and filtering reduces to
keyword matching. -/
theorem C10_witness :
    ai_content_analysis false true 0 "get the torrent now".toList = 0 ∧
    ((message_filter_verdict false true 0.7 0 []
          "get the torrent now".toList).should_filter = true ↔
      keyword_detection "get the torrent now".toList (effective_keywords [])
        ≠ []) :=
  ⟨(C10_ai_off_keyword_only false true 0.7 0 [] "get the torrent now".toList
      (Or.inl rfl)).1,
    (C10_ai_off_keyword_only false true 0.7 0 [] "get the torrent now".toList
      (Or.inl rfl)).2 (by norm_num)⟩

end BotChannel
